import Mathlib

/-!
Shallow embedding of the decorator-chain engine in `src/draping/draping.py`.

Modelling conventions:
* A transformer (decorator) is identified by a natural number (`TId`);
  the source matches decorators by object identity (`is`), which the
  identifier models.
* `Obj` is a live Python callable as the module's reflection sees it:
  `Obj.bare effs base` is a callable carrying no `__wrapped__` attribute
  whose call behaviour applies the transformer effects `effs` (outermost
  first) to the underlying function `base`; `Obj.layer eff tag inner` is a
  wrapper object with `__wrapped__ = inner`, `_applied_decorator = tag`
  (`none` when the attribute is absent, i.e. an anonymous / untracked
  layer) and call behaviour `eff` applied to `inner`'s behaviour.
* Applying a decorator bare — as the rebuild loops of `redecorate` (lines
  211–214) and `undecorate` (lines 295–299) do, without
  `functools.update_wrapper` and without setting `_applied_decorator` —
  yields an object with no `__wrapped__` attribute: `applyT`.  This models
  transformers that do not themselves set `__wrapped__`; only `decorate`
  (lines 121–123) compensates by calling `functools.update_wrapper` and
  tagging the result.
* Descriptor shapes: `DescKind` mirrors the `staticmethod` / `classmethod`
  handling.  Under CPython 3.10–3.12 both descriptor objects expose a
  `__wrapped__` attribute (pointing at `__func__`) and carry no
  `_applied_decorator`, so the walk in `_deconstruct_chain` (lines 47–55)
  sees a class- or static-bound attribute as one extra anonymous entry at
  the outermost position (`deconsDecos`).  `redecorate` is modelled for
  plain attributes, which is the shape every theorem below uses.
-/

namespace Draping

/-- Transformer identity (decorators are compared with `is` in the source). -/
abbrev TId := Nat

/-- A live callable object as seen through `__wrapped__` /
`_applied_decorator` reflection; see the module docstring above. -/
inductive Obj where
  | bare (effs : List TId) (base : Nat)
  | layer (eff : TId) (tag : Option TId) (inner : Obj)
deriving DecidableEq, Repr

/-- Call behaviour of an object: the list of transformer effects applied
(outermost first) and the underlying base function. -/
def beh : Obj → List TId × Nat
  | .bare effs b => (effs, b)
  | .layer e _ inner => (e :: (beh inner).1, (beh inner).2)

/-- Bare application of the decorator `t` to `o` (`deco(rebuilt)` in the
rebuild loops): behaviour gains effect `t`, but the result exposes no
`__wrapped__` back-reference and no `_applied_decorator` tag. -/
def applyT (t : TId) (o : Obj) : Obj :=
  .bare (t :: (beh o).1) (beh o).2

/-- The wrapper objects of a chain, innermost first — the `wrappers` list of
`_deconstruct_chain` line 54 and of `redecorate` line 186. -/
def wrappersOf : Obj → List Obj
  | .bare _ _ => []
  | .layer e t inner => wrappersOf inner ++ [.layer e t inner]

/-- The terminal object the `__wrapped__` walk stops at (`original_func`,
line 53 / line 185). -/
def originalOf : Obj → Obj
  | .bare effs b => .bare effs b
  | .layer _ _ inner => originalOf inner

/-- The recorded decorator of a wrapper:
`getattr(w, '_applied_decorator', None)` (line 55 / line 192). -/
def tagOf : Obj → Option TId
  | .bare _ _ => none
  | .layer _ t _ => t

/-- Number of genuine wrapper layers of an object. -/
def layerCount : Obj → Nat
  | .bare _ _ => 0
  | .layer _ _ inner => layerCount inner + 1

/-- The duplicate-detection walk of `decorate` lines 110–116: visit every
object that still has a `__wrapped__` attribute and test its
`_applied_decorator` against the decorator being applied. -/
def hasTagged (t : TId) : Obj → Bool
  | .bare _ _ => false
  | .layer _ tag inner => if tag = some t then true else hasTagged t inner

/-- The descriptor shape of the raw attribute (`descriptor_type`,
lines 57–61): a plain function, a `classmethod` or a `staticmethod`. -/
inductive DescKind where
  | plain
  | static
  | cls
deriving DecidableEq, Repr

/-- A raw attribute slot: its descriptor shape and the callable inside it
(`__func__` for class- or static-bound attributes, the attribute itself for
plain ones). -/
structure Attr where
  kind : DescKind
  obj : Obj
deriving DecidableEq, Repr

/-- The body of one `decorate` loop iteration (lines 100–133) on an already
resolved attribute: optionally detect a duplicate (lines 109–119), else wrap
the current callable, tag the wrapper with the decorator (lines 121–123) and
re-wrap in the original descriptor shape (lines 125–132).  Returns the
boolean result slot and the attribute written back. -/
def decorate1 (t : TId) (again : Bool) (a : Attr) : Bool × Attr :=
  if !again && hasTagged t a.obj then (false, a)
  else (true, ⟨a.kind, .layer t (some t) a.obj⟩)

/-- The decorator list produced by `_deconstruct_chain` (innermost first,
line 55).  For class- or static-bound attributes the descriptor object itself
is traversed by the `__wrapped__` walk (CPython 3.10–3.12) and contributes
one extra anonymous entry at the outermost end. -/
def deconsDecos (a : Attr) : List (Option TId) :=
  (wrappersOf a.obj).map tagOf ++
    (match a.kind with
     | .plain => []
     | _ => [none])

/-- The rebuild loop of `undecorate` lines 296–299: re-apply each tracked
decorator from the inside out, silently skipping `None` entries. -/
def rebuildSkipNone (orig : Obj) (decos : List (Option TId)) : Obj :=
  decos.foldl
    (fun acc d =>
      match d with
      | some t => applyT t acc
      | none => acc)
    orig

/-- The backwards scan of `undecorate` lines 286–290: drop the outermost
(last) entry that is the given decorator; `none` if it does not occur. -/
def removeOutermost (t : TId) : List (Option TId) → Option (List (Option TId))
  | [] => none
  | d :: rest =>
    match removeOutermost t rest with
    | some rest' => some (d :: rest')
    | none => if d = some t then some rest else none

/-- `undecorate` (lines 263–312) on a resolved attribute: deconstruct, pick
the entry to drop according to the three policies, rebuild skipping `None`
entries and re-wrap in the recorded descriptor shape.  Returns the boolean
result and the attribute left in the slot. -/
def undecorate1 (toRemove : Option TId) (ifTop : Bool) (a : Attr) : Bool × Attr :=
  let decos := deconsDecos a
  if decos.isEmpty then (false, a)
  else
    let newDecos :=
      match toRemove with
      | none => some decos.dropLast
      | some t =>
        if ifTop then
          if decos.getLast? = some (some t) then some decos.dropLast else none
        else
          removeOutermost t decos
    match newDecos with
    | none => (false, a)
    | some nd => (true, ⟨a.kind, rebuildSkipNone (originalOf a.obj) nd⟩)

/-- One entry of `decorators_to_apply` in `redecorate` (lines 189–205): a
real decorator to call, or one of the fallback closures
`lambda f: wrapper` / `lambda f: w`, which ignore their argument and return
a captured wrapper object. -/
inductive Step where
  | applyDeco (t : TId)
  | constObj (w : Obj)
deriving DecidableEq, Repr

/-- Index of the innermost wrapper whose recorded decorator is `d1` —
the first iteration of the `redecorate` scan (lines 191–193) that takes the
replacement branch. -/
def findMatchIdx (d1 : TId) : List Obj → Option Nat
  | [] => none
  | w :: rest =>
    if tagOf w = some d1 then some 0
    else (findMatchIdx d1 rest).map (· + 1)

/-- `decorators_to_apply` for `change_all=True`: every `deco1` occurrence
becomes `deco2`, other tracked layers re-apply their decorator, and every
anonymous layer contributes `lambda f: wrapper` (line 205).  Python closes
over the loop variable, so when those closures run in the rebuild loop —
after the scan finished — they all return the last wrapper scanned, i.e.
the outermost one (`lastW`). -/
def stepsAll (d1 d2 : TId) (lastW : Obj) (ws : List Obj) : List Step :=
  ws.map fun w =>
    match tagOf w with
    | some t => if t = d1 then .applyDeco d2 else .applyDeco t
    | none => .constObj lastW

/-- `decorators_to_apply` for `change_all=False` with the innermost match at
index `i` (lines 193–202): the prefix before the match re-applies tracked
decorators, with anonymous entries falling back to `lambda f: wrapper`
(line 205) — by rebuild time the loop variable holds `ws[i]`, where the
loop broke; then `deco2`; then the remaining wrappers via
`getattr(w, '_applied_decorator', lambda f: w)` (line 200), whose fallback
closures all see the exhausted generator variable, i.e. the last remaining
wrapper (the outermost one). -/
def stepsOne (_d1 d2 : TId) (ws : List Obj) (i : Nat) : List Step :=
  let matchW := ((ws.drop i).head?).getD (Obj.bare [] 0)
  let lastW := (ws.getLast?).getD (Obj.bare [] 0)
  ((ws.take i).map fun w =>
    match tagOf w with
    | some t => Step.applyDeco t
    | none => Step.constObj matchW)
  ++ [Step.applyDeco d2]
  ++ ((ws.drop (i + 1)).map fun w =>
    match tagOf w with
    | some t => Step.applyDeco t
    | none => Step.constObj lastW)

/-- The rebuild loop of `redecorate` lines 212–214: fold the collected
steps over the original callable, innermost first. -/
def runSteps (orig : Obj) (steps : List Step) : Obj :=
  steps.foldl
    (fun acc s =>
      match s with
      | .applyDeco t => applyT t acc
      | .constObj w => w)
    orig

/-- The body of one `redecorate` loop iteration (lines 170–227) on a plain
attribute: walk the chain (lines 175–186), return `False` when the chain is
empty or `deco1` never occurs (lines 181–183 and 207–209), otherwise build
`decorators_to_apply` per `change_all` and rebuild. -/
def redecorate1 (d1 d2 : TId) (changeAll : Bool) (o : Obj) : Bool × Obj :=
  let ws := wrappersOf o
  match findMatchIdx d1 ws with
  | none => (false, o)
  | some i =>
    let steps :=
      if changeAll then stepsAll d1 d2 ((ws.getLast?).getD (Obj.bare [] 0)) ws
      else stepsOne d1 d2 ws i
    (true, runSteps (originalOf o) steps)

/-- A batch target: one that resolves to an attribute, or one whose
resolution raises (`TypeError` from `_get_parent_and_name`). -/
inductive Target where
  | ok (a : Attr)
  | bad
deriving DecidableEq, Repr

/-- The batch driver shared by `decorate` (lines 98–140) and `redecorate`
(lines 167–234): run `op` on each target left to right; a failing target
either aborts the whole call (`raise_on_error=True` — no result list is
produced, targets after the failure are untouched, earlier writes stay
committed) or records `false` and continues.  The first component is the
returned result tuple (`none` = the exception propagated); the second is
the final state of every target slot. -/
def batchOp (op : Attr → Bool × Attr) (roe : Bool) :
    List Target → Option (List Bool) × List Target
  | [] => (some [], [])
  | .bad :: rest =>
    if roe then (none, .bad :: rest)
    else
      ((batchOp op roe rest).1.map (fun l => false :: l),
        .bad :: (batchOp op roe rest).2)
  | .ok a :: rest =>
    ((batchOp op roe rest).1.map (fun l => (op a).1 :: l),
      .ok (op a).2 :: (batchOp op roe rest).2)

/-- A container as returned by `_get_parent_and_name`: a class or a module,
identified by a numeric id. -/
inductive Container where
  | cls (id : Nat)
  | module (id : Nat)
deriving DecidableEq, Repr

/-- A bound instance method: `__self__.__class__` (`selfClass`, the runtime
class of the instance), the class that actually defines the method
(`declClass`, not consulted by the code), and `__name__`. -/
structure BoundMethod where
  selfClass : Nat
  declClass : Nat
  name : String
deriving DecidableEq, Repr

/-- A free function: its `__qualname__` split on dots (last segment =
`__name__`), the id of its defining module, and the module's attribute
table as consulted by `getattr(module, class_name, None)`. -/
structure FreeFunc where
  qualparts : List String
  moduleId : Nat
  moduleNames : List (String × Nat)
deriving DecidableEq, Repr

/-- The argument shapes `_get_parent_and_name` distinguishes. -/
inductive FuncObj where
  | method (m : BoundMethod)
  | func (f : FreeFunc)
  | other
deriving DecidableEq, Repr

/-- `getattr(module, class_name, None)` over the module attribute table. -/
def lookupName : List (String × Nat) → String → Option Nat
  | [], _ => none
  | (k, v) :: rest, s => if k = s then some v else lookupName rest s

/-- Last segment of a split qualified name (`parts.pop()`, line 16). -/
def lastPart (ps : List String) : String :=
  (ps.getLast?).getD ""

/-- Second-to-last segment (`parts.pop()` again, line 17). -/
def penultPart (ps : List String) : String :=
  (ps.dropLast.getLast?).getD ""

/-- `_get_parent_and_name` (lines 9–25): a bound method resolves to the
runtime class of its `__self__`; a free function with a dotted
`__qualname__` resolves to the second-to-last segment looked up in its
module, raising `TypeError` when absent; an undotted free function resolves
to its module; anything else raises `TypeError`. -/
def getParentAndName : FuncObj → Except String (Container × String)
  | .method m => .ok (.cls m.selfClass, m.name)
  | .func f =>
    if 2 ≤ f.qualparts.length then
      match lookupName f.moduleNames (penultPart f.qualparts) with
      | some c => .ok (.cls c, lastPart f.qualparts)
      | none => .error "TypeError"
    else .ok (.module f.moduleId, lastPart f.qualparts)
  | .other => .error "TypeError"

/-- Names bound in `draping/draping.py` before the `def undecorate`
statement is executed: the three module imports, the `typing` imports of
line 4, and the earlier top-level definitions. -/
def drapingNamesBeforeUndecorate : List String :=
  ["functools", "inspect", "threading",
   "Any", "Callable", "List", "Tuple",
   "_patch_lock", "_get_parent_and_name", "_deconstruct_chain",
   "decorate", "redecorate"]

/-- Names `undecorate`'s signature (lines 237–243) evaluates at definition
time: the parameter annotations reference `Callable` and `Optional`. -/
def undecorateSignatureNames : List String :=
  ["Callable", "Optional"]

/-- Every top-level name `draping/draping.py` would define. -/
def drapingTopLevel : List String :=
  drapingNamesBeforeUndecorate ++ ["undecorate"]

/-- Names `draping/__init__.py` line 7 imports from `.draping`. -/
def initFromDraping : List String :=
  ["decorate", "redecorate", "undecorate",
   "start_with", "not_start_with", "contains", "not_contains",
   "positive_re", "negative_re"]

/-- `import draping` succeeds iff every name `undecorate`'s signature
references is bound when the `def` executes and every name `__init__.py`
imports from the core module is defined there. -/
def importSucceeds : Bool :=
  undecorateSignatureNames.all (fun n => decide (n ∈ drapingNamesBeforeUndecorate))
    && initFromDraping.all (fun n => decide (n ∈ drapingTopLevel))

/-- Chain for C1: two tracked applications of decorator 1 on base function 0
(innermost first: decorator 1, then decorator 1 again). -/
def chainC1 : Obj :=
  Obj.layer 1 (some 1) (Obj.layer 1 (some 1) (Obj.bare [] 0))

/-- Chain for C2: tracked decorator 1 innermost, an anonymous layer with
effect 9 outermost. -/
def chainC2 : Obj :=
  Obj.layer 9 none (Obj.layer 1 (some 1) (Obj.bare [] 0))

/-- Chain for C3: an anonymous layer with effect 9 innermost, tracked
decorator 1 outermost. -/
def chainC3 : Obj :=
  Obj.layer 1 (some 1) (Obj.layer 9 none (Obj.bare [] 0))

/-- Chain for C4: one tracked application of decorator 1 on base 0. -/
def chainC4 : Obj :=
  Obj.layer 1 (some 1) (Obj.bare [] 0)

/-- Chain for C5: one tracked application of decorator 1 on base 0. -/
def chainC5 : Obj :=
  Obj.layer 1 (some 1) (Obj.bare [] 0)

/-- Claim C1 (code bug): on a chain holding decorator 1 both innermost and
outermost, `redecorate(1, 2, change_all=False)` substitutes decorator 2 at
the INNERMOST occurrence — the written-back behaviour is effect 1 outside
effect 2 — contradicting the claim (and the docstring), which demands the
outermost occurrence, i.e. behaviour effect 2 outside effect 1. -/
theorem C1_replace_single_hits_innermost :
    redecorate1 1 2 false chainC1 = (true, Obj.bare [1, 2] 0)
    ∧ (beh (redecorate1 1 2 false chainC1).2).1 = [1, 2]
    ∧ [1, 2] ≠ [2, 1] := by decide

/-- Claim C2 (code bug): on a chain with tracked decorator 1 under an
anonymous layer, a committed `redecorate(1, 2, change_all=True)` writes back
the old anonymous wrapper object itself (the `lambda f: wrapper` fallback
discards the rebuilt inner chain), so the behaviour keeps old effect 1 and
the advertised replacement by effect 2 never appears. -/
theorem C2_anonymous_layer_not_preserved :
    redecorate1 1 2 true chainC2 = (true, chainC2)
    ∧ (beh (redecorate1 1 2 true chainC2).2).1 = [9, 1]
    ∧ [9, 1] ≠ [9, 2] := by decide

/-- Claim C3 (code bug): `undecorate` with no decorator given, on a chain of
two layers whose inner one is anonymous, removes BOTH layers: the rebuild
loop skips `None` entries, so chain length drops from 2 to 0 instead of 1. -/
theorem C3_remove_drops_anonymous_too :
    undecorate1 none false ⟨DescKind.plain, chainC3⟩
      = (true, ⟨DescKind.plain, Obj.bare [] 0⟩)
    ∧ layerCount chainC3 = 2
    ∧ layerCount (undecorate1 none false ⟨DescKind.plain, chainC3⟩).2.obj = 0 := by
  decide

/-- Claim C4 (code bug): applying decorator 2 to a target already carrying
one tracked layer and then removing it yields a bare, untagged application
of decorator 1 — call behaviour is preserved but the observable chain length
drops from 1 to 0, so the pre-apply state is not restored. -/
theorem C4_round_trip_loses_chain :
    decorate1 2 false ⟨DescKind.plain, chainC4⟩
      = (true, ⟨DescKind.plain, Obj.layer 2 (some 2) chainC4⟩)
    ∧ undecorate1 none false ⟨DescKind.plain, Obj.layer 2 (some 2) chainC4⟩
      = (true, ⟨DescKind.plain, Obj.bare [1] 0⟩)
    ∧ beh (Obj.bare [1] 0) = beh chainC4
    ∧ layerCount chainC4 = 1
    ∧ layerCount (Obj.bare [1] 0) = 0 := by decide

/-- Claim C5 (code bug): a committed `redecorate(1, 2)` on a single tracked
layer writes back a bare application of decorator 2 — behaviour gains effect
2, but the written object exposes no `__wrapped__` back-reference and no
recorded decorator, so a subsequent deconstruction recovers an empty chain
rather than the chain just written. -/
theorem C5_rebuild_untagged :
    redecorate1 1 2 true chainC5 = (true, Obj.bare [2] 0)
    ∧ (beh (Obj.bare [2] 0)).1 = [2]
    ∧ wrappersOf (Obj.bare [2] 0) = []
    ∧ deconsDecos ⟨DescKind.plain, Obj.bare [2] 0⟩ = [] := by decide

/-- Claim C6 (confirmed): for every descriptor kind and undecorated target,
the first `decorate(t)` succeeds and tags one layer; the second call with
`decorate_again=False` returns `False` and leaves the attribute untouched,
so the chain length stays 1; and in general whenever `t`'s identity already
occurs anywhere in the chain, `decorate(t)` performs no mutation. -/
theorem C6_apply_idempotent :
    (∀ (k : DescKind) (effs : List TId) (b t : TId),
      decorate1 t false ⟨k, Obj.bare effs b⟩
          = (true, ⟨k, Obj.layer t (some t) (Obj.bare effs b)⟩)
      ∧ decorate1 t false ⟨k, Obj.layer t (some t) (Obj.bare effs b)⟩
          = (false, ⟨k, Obj.layer t (some t) (Obj.bare effs b)⟩)
      ∧ layerCount (Obj.layer t (some t) (Obj.bare effs b)) = 1)
    ∧ (∀ (k : DescKind) (o : Obj) (t : TId), hasTagged t o = true →
        decorate1 t false ⟨k, o⟩ = (false, ⟨k, o⟩)) := by
  constructor
  · intro k effs b t
    refine ⟨?_, ?_, ?_⟩
    · simp [decorate1, hasTagged]
    · simp [decorate1, hasTagged]
    · simp [layerCount]
  · intro k o t h
    simp [decorate1, h]

/-- Witness for C6: on a chain already tagged with decorator 1, applying
decorator 1 again with `decorate_again=False` is refused. -/
theorem C6_apply_idempotent_witness :
    decorate1 1 false ⟨DescKind.plain, Obj.layer 1 (some 1) (Obj.bare [] 0)⟩
      = (false, ⟨DescKind.plain, Obj.layer 1 (some 1) (Obj.bare [] 0)⟩) :=
  C6_apply_idempotent.2 DescKind.plain (Obj.layer 1 (some 1) (Obj.bare [] 0)) 1
    (by decide)

/-- Claim C7 (confirmed): for the batch driver shared by `decorate` and
`redecorate`, with `raise_on_error=True` the first unresolvable target
aborts the call — no result tuple is produced, targets after the failure
are untouched, and mutations already committed on earlier targets remain;
with `raise_on_error=False` the failing slot is `false`, processing
continues, and a result tuple is always produced. -/
theorem C7_batch_error_contract (op : Attr → Bool × Attr) (oks : List Attr)
    (rest : List Target) :
    batchOp op true (oks.map Target.ok ++ Target.bad :: rest)
      = (none, oks.map (fun a => Target.ok (op a).2) ++ Target.bad :: rest)
    ∧ (batchOp op false (oks.map Target.ok ++ Target.bad :: rest)).1
      = ((batchOp op false rest).1).map
          (fun l => (oks.map fun a => (op a).1) ++ false :: l)
    ∧ (∀ ts : List Target, ((batchOp op false ts).1).isSome = true) := by
  refine ⟨?_, ?_, ?_⟩
  · induction oks with
    | nil => simp [batchOp]
    | cons a tl ih => simp [batchOp, ih]
  · induction oks with
    | nil =>
      cases h : (batchOp op false rest).1 <;> simp [batchOp, h]
    | cons a tl ih =>
      cases h : (batchOp op false rest).1 <;>
        simp [batchOp, ih, h, Function.comp]
  · intro ts
    induction ts with
    | nil => simp [batchOp]
    | cons t tl ih =>
      cases t with
      | ok a => simpa [batchOp] using ih
      | bad => simpa [batchOp] using ih

/-- Bound method for C8: the instance's runtime class (id 2) differs from
the class that defines the method (id 1) — an inherited method. -/
def exMethodC8 : BoundMethod := ⟨2, 1, "m"⟩

/-- Free function for C8 whose dotted qualified name resolves: class "A" is
present in the module table with id 7. -/
def exFuncC8a : FreeFunc := ⟨["A", "m"], 0, [("A", 7)]⟩

/-- Free function for C8 whose dotted qualified name does not resolve: the
module table is empty. -/
def exFuncC8b : FreeFunc := ⟨["A", "m"], 0, []⟩

/-- Counterexample for C8: for an inherited bound method the locator
returns the runtime class of `__self__` (id 2), which is not the declaring
class (id 1) the claim requires. -/
theorem C8_bound_method_runtime_class :
    getParentAndName (FuncObj.method exMethodC8)
      = Except.ok (Container.cls exMethodC8.selfClass, exMethodC8.name)
    ∧ Container.cls exMethodC8.selfClass ≠ Container.cls exMethodC8.declClass :=
  ⟨rfl, by decide⟩

/-- Claim C8 (amended): a bound instance method resolves to the runtime
class of its bound instance (`__self__.__class__`) — the declaring class
only when the method is not inherited — with the method name; a free
function with a dotted qualified name resolves to the second-to-last
segment looked up in its defining module, and fails with the resolution
error (`TypeError`) when that class cannot be found. -/
theorem C8_locator_amended :
    (∀ m : BoundMethod,
      getParentAndName (FuncObj.method m)
        = Except.ok (Container.cls m.selfClass, m.name))
    ∧ (∀ f : FreeFunc, 2 ≤ f.qualparts.length → ∀ c,
        lookupName f.moduleNames (penultPart f.qualparts) = some c →
          getParentAndName (FuncObj.func f)
            = Except.ok (Container.cls c, lastPart f.qualparts))
    ∧ (∀ f : FreeFunc, 2 ≤ f.qualparts.length →
        lookupName f.moduleNames (penultPart f.qualparts) = none →
          getParentAndName (FuncObj.func f) = Except.error "TypeError") := by
  refine ⟨fun m => rfl, ?_, ?_⟩
  · intro f h c hc
    simp [getParentAndName, h, hc]
  · intro f h hc
    simp [getParentAndName, h, hc]

/-- Witness for C8: the amended locator behaviour at concrete inputs — a
resolvable nested name yields class id 7 with the last segment, and an
unresolvable one yields the resolution error. -/
theorem C8_locator_amended_witness :
    getParentAndName (FuncObj.func exFuncC8a)
      = Except.ok (Container.cls 7, lastPart exFuncC8a.qualparts)
    ∧ getParentAndName (FuncObj.func exFuncC8b) = Except.error "TypeError" :=
  ⟨C8_locator_amended.2.1 exFuncC8a (by decide) 7 (by decide),
   C8_locator_amended.2.2 exFuncC8b (by decide) (by decide)⟩

/-- Claim C9 (code bug): evaluating the package fails — `Optional`, used in
`undecorate`'s signature, is not among the names bound in the core module,
and the six selection predicates `__init__.py` imports are not defined
there, so `import draping` cannot succeed. -/
theorem C9_import_fails :
    "Optional" ∉ drapingNamesBeforeUndecorate
    ∧ "start_with" ∉ drapingTopLevel
    ∧ importSucceeds = false := by decide

end Draping
